import Mathlib

/-!
Verification development for the weather-widget program (src/main.py).

The Python source is shallowly embedded below: pure functions become Lean
functions, the effectful calls (HTTP GET of the geolocation providers, the
open-meteo forecast request, the wall clock and the local timezone offset)
become explicit parameters, and fallible code returns `Except`/`Option`.
All numeric values that are Python floats are modelled as rationals, with
Python's rounding (`round`, banker's rounding half-to-even) and truncation
(`int(...)`) made explicit.
-/

/-- Python's built-in `round` to an integer: round half to even. -/
def pyRound (q : ℚ) : Int :=
  let f := q.floor
  let r := q - (f : ℚ)
  if r < 1/2 then f
  else if 1/2 < r then f + 1
  else if f % 2 = 0 then f else f + 1

/-- Python's `int(...)` on a float: truncation toward zero. -/
def pyTrunc (q : ℚ) : Int :=
  if 0 ≤ q then q.floor else -((-q).floor)

/-- Render a natural number with leading zeros up to width `d`
(used for `strftime` fields and fixed-point fraction digits). -/
def padZeros (s : String) (d : Nat) : String :=
  if s.length < d then String.mk (List.replicate (d - s.length) '0') ++ s else s

/-- Python's fixed-point float formatting `f"x:.df"`: round half to even at
`d` decimal places and print with exactly `d` fraction digits. -/
def fmtFixed (q : ℚ) (d : Nat) : String :=
  let n := pyRound (q * ((10 : ℚ) ^ d))
  let sgn := if n < 0 then "-" else ""
  let a := n.natAbs
  sgn ++ toString (a / 10 ^ d) ++ "." ++ padZeros (toString (a % 10 ^ d)) d

/-- Python `f"x"` rendering of an optional string: `None` prints as "None". -/
def pyOptStr (o : Option String) : String :=
  match o with
  | some s => s
  | none => "None"

/-- Python `str.capitalize()`: first character upper-cased, rest lower-cased. -/
def pyCapitalize (s : String) : String :=
  match s.data with
  | [] => ""
  | c :: cs => String.mk (c.toUpper :: cs.map Char.toLower)

-- --- Mapping (src/main.py lines 19-51) ------------------------------------

/-- The `WMO` table of src/main.py: weather code to (icon, description). -/
def WMO : List (Int × String × String) := [
  (0, ("☀️", "klar")),
  (1, ("🌤️", "überwiegend klar")),
  (2, ("⛅", "teilweise bewölkt")),
  (3, ("☁️", "bedeckt")),
  (45, ("🌫️", "nebel")),
  (48, ("🌫️", "reifnebel")),
  (51, ("🌦️", "niesel (leicht)")),
  (53, ("🌦️", "niesel (mäßig)")),
  (55, ("🌧️", "niesel (stark)")),
  (56, ("🌧️", "gefrierender niesel (leicht)")),
  (57, ("🌧️", "gefrierender niesel (stark)")),
  (61, ("🌦️", "regen (leicht)")),
  (63, ("🌧️", "regen (mäßig)")),
  (65, ("🌧️", "regen (stark)")),
  (66, ("🌧️", "gefrierender regen (leicht)")),
  (67, ("🌧️", "gefrierender regen (stark)")),
  (71, ("🌨️", "schnee (leicht)")),
  (73, ("🌨️", "schnee (mäßig)")),
  (75, ("❄️", "schnee (stark)")),
  (77, ("🌨️", "schneekörner")),
  (80, ("🌦️", "schauer (leicht)")),
  (81, ("🌧️", "schauer (mäßig)")),
  (82, ("🌧️", "schauer (heftig)")),
  (85, ("🌨️", "schneeschauer (leicht)")),
  (86, ("❄️", "schneeschauer (heftig)")),
  (95, ("⛈️", "gewitter")),
  (96, ("⛈️", "gewitter mit hagel (leicht)")),
  (99, ("⛈️", "gewitter mit hagel (stark)"))]

/-- `wmo_to_icon_desc` of src/main.py: `WMO.get(int(code), ("❓", "unbekannt"))`.
The argument is already an integer, so `int(code)` is the identity. -/
def wmo_to_icon_desc (code : Int) : String × String :=
  (WMO.lookup code).getD ("❓", "unbekannt")

-- --- Data model ------------------------------------------------------------

/-- One entry of the `weather` list inside the current-conditions dict. -/
structure CurrentWeather where
  description : String
  icon : String
  icon_code : String
deriving DecidableEq

/-- The `current` dict produced by `get_weather` ("old schema"): all numeric
fields are integers there (already rounded at ingestion). -/
structure Current where
  temp : Int
  feels_like : Int
  humidity : Int
  wind_speed : Int
  wind_deg : Int
  weather : List CurrentWeather
deriving DecidableEq

/-- One hourly entry: time is a timezone-aware instant, modelled as rational
seconds since the epoch (UTC). -/
structure HourlyPoint where
  time : ℚ
  temp : Int
  wmo : Int
deriving DecidableEq

/-- The `weather_data` dict returned by `get_weather`. -/
structure WeatherData where
  request_limit_reached : Bool
  current : Current
  hourly : List HourlyPoint
deriving DecidableEq

/-- The `location_info` dict: `city` is always a string (place name or
rendered coordinates); region/country may be `None`. -/
structure LocationInfo where
  city : String
  region : Option String
  country : Option String
deriving DecidableEq

/-- The waybar output dict built by `build_waybar_output`. -/
structure Output where
  text : String
  alt : String
  tooltip : String
  «class» : String
deriving DecidableEq

-- --- Tooltip: hourly forecast (src/main.py lines 55-75) --------------------

/-- Flooring a timezone-aware instant to the hour in local time:
`t.astimezone().replace(minute=0, second=0, microsecond=0)` as an instant in
local seconds.  `t` is rational seconds since the epoch (UTC), `off` the local
UTC offset in seconds; `replace(microsecond=0)` drops the fractional second,
so local seconds are `⌊t⌋ + off` (the offset is a whole number of seconds,
so adding it after flooring is exact).  Comparing two instants floored this
way compares these values (the shared offset cancels in the comparison). -/
def hourFloorLocal (t : ℚ) (off : Int) : Int :=
  let ls : Int := t.floor + off
  ls - ls % 3600

/-- `strftime("%H:%M")` of an instant rendered in the local timezone.
Local seconds are `⌊t⌋ + off` (the offset is a whole number of seconds, so
adding it after flooring is exact). -/
def fmtHM (t : ℚ) (off : Int) : String :=
  let ls : Int := t.floor + off
  let hh := ((ls % 86400) / 3600).toNat
  let mm := ((ls % 3600) / 60).toNat
  padZeros (toString hh) 2 ++ ":" ++ padZeros (toString mm) 2

/-- One rendered hourly row: `f"{t_local}  {icon}  {temp}°C"`.  The source
resolves the icon through `wmo_to_icon_desc(h.get("wmo", -1))`; every point in
the model carries a `wmo` field, so the `-1` default never fires. -/
def hourlyLine (h : HourlyPoint) (off : Int) : String :=
  fmtHM h.time off ++ "  " ++ (wmo_to_icon_desc h.wmo).1 ++ "  " ++
    toString h.temp ++ "°C"

/-- Python's `"\n".join(...)`. -/
def join_nl : List String → String
  | [] => ""
  | [a] => a
  | a :: b :: rest => a ++ "\n" ++ join_nl (b :: rest)

/-- The row selection inside `format_hourly_forecast`:
`future = [h for h in hourly if floor-to-local-hour(h.time) >= floor-to-local-hour(now)]`,
`rows = future[:hours] if future else hourly[:hours]`.  Every modelled point
has a `time`, so the `h.get("time")` truthiness test always passes. -/
def hourlyRows (hourly : List HourlyPoint) (hours : Nat) (now : ℚ) (off : Int) :
    List HourlyPoint :=
  let future := hourly.filter
    (fun h => decide (hourFloorLocal now off ≤ hourFloorLocal h.time off))
  if future.isEmpty then hourly.take hours else future.take hours

/-- `format_hourly_forecast` of src/main.py.  The wall clock (`datetime.now`)
and the system local timezone offset used by `astimezone()` are explicit
parameters `now` and `off`; the `tz` parameter is unused by the source body
(its default is "Europe/Berlin", the default for `hours` is 6). -/
def format_hourly_forecast (hourly : List HourlyPoint) (hours : Nat)
    (tz : String) (now : ℚ) (off : Int) : String :=
  if hourly.isEmpty then ""
  else
    join_nl (["", "", "Stündlich:"] ++
      (hourlyRows hourly hours now off).map (fun h => hourlyLine h off))

-- --- Waybar builder (src/main.py lines 79-112) -----------------------------

/-- The open-meteo response, reduced to the fields src/main.py reads:
six current-condition values (floats), the hourly block's start/end epoch
seconds and interval, and the two hourly value arrays (floats; the source
casts the code array with `astype(int)`). -/
structure ApiResponse where
  cur_temp : ℚ
  cur_feels : ℚ
  cur_hum : ℚ
  cur_wind : ℚ
  cur_winddeg : ℚ
  h_time : Int
  h_time_end : Int
  h_interval : Int
  h_t2m : List ℚ
  h_wmo : List ℚ
  cur_wmo : ℚ
deriving DecidableEq

/-- `build_waybar_output` of src/main.py.  `response` is accepted and unused,
as in the source; the hourly formatter is the source's default
`format_hourly_forecast` with the clock and timezone offset passed through.
The numeric fields of `current` are integers in the "old schema", so the
source's `round(...)` on them is the identity; `current["weather"][0]` is
modelled by `headD` with a junk default (the source always builds a
one-element list, and raises IndexError otherwise). -/
def build_waybar_output (response : Option ApiResponse)
    (location_info : LocationInfo) (weather_data : WeatherData)
    (request_limit_warning : String) (now : ℚ) (off : Int) : Output :=
  let current := weather_data.current
  let temp := current.temp
  let feels_like := current.feels_like
  let humidity := current.humidity
  let wind_speed := current.wind_speed
  let w0 := current.weather.headD ⟨"", "", ""⟩
  let description := w0.description
  let icon_code := w0.icon_code
  let icon := w0.icon
  let tooltip_text :=
    "📍 " ++ location_info.city ++ ", " ++ pyOptStr location_info.region ++
      ", " ++ pyOptStr location_info.country ++
    request_limit_warning ++ "\n" ++
    "<span size=\x27xx-large\x27>" ++ toString temp ++ "°C</span>\n" ++
    "<big>" ++ icon ++ " " ++ pyCapitalize description ++ "</big>\n" ++
    "Gefühlte: " ++ toString feels_like ++ "°C\n" ++
    "Feuchtigkeit: " ++ toString humidity ++ "%\n" ++
    "Wind: " ++ toString wind_speed ++ " km/h" ++
    format_hourly_forecast weather_data.hourly 6 "Europe/Berlin" now off
  { text := icon ++ " " ++ toString temp ++ "°C",
    alt := description,
    tooltip := tooltip_text,
    «class» := icon_code }

-- --- Fetch + normalisation (src/main.py lines 116-214) ---------------------

/-- The placeholder `current` dict of the `except` branch of `get_weather`. -/
def degraded_current : Current :=
  { temp := 0, feels_like := 0, humidity := 0, wind_speed := 0, wind_deg := 0,
    weather := [{ description := "unbekannt", icon := "❓", icon_code := "-1" }] }

/-- The placeholder `weather_data` dict of the `except` branch of
`get_weather` (`request_limit_reached = True`, empty hourly list). -/
def degraded_weather_data : WeatherData :=
  { request_limit_reached := true, current := degraded_current, hourly := [] }

/-- `get_weather` of src/main.py.  The forecast request
(`client.weather_api(...)` and the reads from its response) is the explicit
`fetch` parameter: `.error e` models any exception raised while requesting or
reading, `.ok r` a response delivering the values in `r`.  The one further
raise point inside the `try` block is `(end - start).total_seconds() // step`
with `step == 0` (Python ZeroDivisionError), which the `except` branch also
catches.  `city` follows `place_name or f"lat:.2f,lon:.2f"` (Python `or`
treats `None` and `""` as absent). -/
def get_weather (lat lon : ℚ) (place_name : Option String) (tz : String)
    (region country : Option String) (fetch : Except String ApiResponse) :
    WeatherData × LocationInfo × Option ApiResponse :=
  let city :=
    match place_name with
    | some s => if s = "" then fmtFixed lat 2 ++ "," ++ fmtFixed lon 2 else s
    | none => fmtFixed lat 2 ++ "," ++ fmtFixed lon 2
  let location_info : LocationInfo :=
    { city := city, region := region, country := country }
  match fetch with
  | Except.error _ => (degraded_weather_data, location_info, none)
  | Except.ok r =>
    if r.h_interval = 0 then (degraded_weather_data, location_info, none)
    else
      let wmo_code := pyTrunc r.cur_wmo
      let id := wmo_to_icon_desc wmo_code
      let current : Current :=
        { temp := pyRound r.cur_temp,
          feels_like := pyRound r.cur_feels,
          humidity := pyRound r.cur_hum,
          wind_speed := pyRound r.cur_wind,
          wind_deg := pyRound r.cur_winddeg,
          weather := [{ description := id.2, icon := id.1,
                        icon_code := toString wmo_code }] }
      let n : Int := Int.fdiv (r.h_time_end - r.h_time) r.h_interval
      let wmoL := r.h_wmo.map pyTrunc
      let n_ok : Int := min n (min (r.h_t2m.length : Int) (wmoL.length : Int))
      let hours : List HourlyPoint :=
        (List.range n_ok.toNat).map (fun (i : ℕ) =>
          { time := (r.h_time : ℚ) +
              (i : ℚ) * ((r.h_time_end : ℚ) - (r.h_time : ℚ)) /
                ((max n 1 : Int) : ℚ),
            temp := pyRound ((r.h_t2m.get? i).getD 0),
            wmo := (wmoL.get? i).getD 0 })
      ({ request_limit_reached := false, current := current, hourly := hours },
        location_info, some r)

-- --- get_ip_location (src/main.py lines 219-269) ---------------------------

/-- A JSON value, reduced to the shapes the three providers deliver. -/
inductive JVal where
  | num (q : ℚ)
  | str (s : String)
  | null
deriving DecidableEq

/-- A JSON object body as returned by `r.json()`. -/
abbrev JObj := List (String × JVal)

/-- The normalized output of a provider:
(latitude, longitude, city, region, country). -/
abbrev Geo := ℚ × ℚ × Option String × Option String × Option String

/-- `d.get(k)` for a field used as a display string; non-string shapes for
these fields are outside the model. -/
def jGetStr (d : JObj) (k : String) : Option String :=
  match d.lookup k with
  | some (JVal.str s) => some s
  | _ => none

/-- Python `a or b` on two optional strings (`None` and `""` are falsy). -/
def pyOr (a b : Option String) : Option String :=
  match a with
  | some s => if s = "" then b else some s
  | none => b

/-- All-digit check and value of a digit run (used by `pyFloatOfString`). -/
def digitsVal (cs : List Char) : Nat :=
  cs.foldl (fun a c => a * 10 + (c.toNat - 48)) 0

/-- Python `float(s)` on a plain decimal string: optional sign, digits,
optional fraction; anything else raises ValueError (`none`).  `float` strips
surrounding whitespace. -/
def pyFloatOfString (s : String) : Option ℚ :=
  let s := s.trim
  let sgn : ℚ := if s.startsWith "-" then -1 else 1
  let body := if s.startsWith "-" ∨ s.startsWith "+" then s.drop 1 else s
  match body.splitOn "." with
  | [a] =>
    if a.data ≠ [] ∧ a.data.all Char.isDigit then
      some (sgn * (digitsVal a.data : ℚ))
    else none
  | [a, b] =>
    if (a.data ≠ [] ∨ b.data ≠ []) ∧ a.data.all Char.isDigit ∧
        b.data.all Char.isDigit then
      some (sgn * ((digitsVal a.data : ℚ) +
        (digitsVal b.data : ℚ) / ((10 : ℚ) ^ b.data.length)))
    else none
  | _ => none

/-- Python `float(d[k])`: KeyError when the key is missing, then `float` on
the value (numbers pass through, strings are parsed, `null` raises). -/
def pyFloatField (v : Option JVal) : Except String ℚ :=
  match v with
  | none => Except.error "KeyError"
  | some (JVal.num q) => Except.ok q
  | some (JVal.str s) =>
    match pyFloatOfString s with
    | some q => Except.ok q
    | none => Except.error "ValueError"
  | some JVal.null => Except.error "TypeError"

/-- The ipapi.co extraction lambda of src/main.py. -/
def extract_ipapi (d : JObj) : Except String Geo := do
  let lat ← pyFloatField (d.lookup "latitude")
  let lon ← pyFloatField (d.lookup "longitude")
  pure (lat, lon, jGetStr d "city", jGetStr d "region",
    pyOr (jGetStr d "country_name") (jGetStr d "country"))

/-- The ipinfo.io extraction lambda of src/main.py:
`float(d["loc"].split(",")[0])`, `float(d["loc"].split(",")[1])`. -/
def extract_ipinfo (d : JObj) : Except String Geo :=
  match d.lookup "loc" with
  | some (JVal.str s) =>
    match s.splitOn "," with
    | p0 :: p1 :: _ => do
      let lat ← pyFloatField (some (JVal.str p0))
      let lon ← pyFloatField (some (JVal.str p1))
      pure (lat, lon, jGetStr d "city", jGetStr d "region",
        jGetStr d "country")
    | _ => Except.error "IndexError"
  | some _ => Except.error "AttributeError"
  | none => Except.error "KeyError"

/-- The ip-api.com extraction lambda of src/main.py. -/
def extract_ipapi_com (d : JObj) : Except String Geo := do
  let lat ← pyFloatField (d.lookup "lat")
  let lon ← pyFloatField (d.lookup "lon")
  pure (lat, lon, jGetStr d "city",
    pyOr (jGetStr d "regionName") (jGetStr d "region"),
    jGetStr d "country")

/-- One provider attempt: `requests.get`, `raise_for_status` and `.json()`
are the external `r` (`.error` for any transport/status/decode failure),
followed by the provider's extraction lambda. -/
def provider_attempt (r : Except String JObj)
    (extract : JObj → Except String Geo) : Except String Geo :=
  match r with
  | Except.error e => Except.error e
  | Except.ok d => extract d

/-- The provider loop of `get_ip_location`: first success wins, failures are
recorded in `last_err` and skipped; exhaustion raises
`RuntimeError(f"IP-Geolokation fehlgeschlagen: last_err")`. -/
def geo_chain : List (Except String Geo) → Option String → Except String Geo
  | [], last_err =>
    Except.error ("IP-Geolokation fehlgeschlagen: " ++ pyOptStr last_err)
  | a :: rest, last_err =>
    match a with
    | Except.ok g => Except.ok g
    | Except.error e => geo_chain rest (some e)

/-- `get_ip_location` of src/main.py, with the three HTTP responses as
explicit parameters (in the source's fixed provider order: ipapi.co,
ipinfo.io, ip-api.com). -/
def get_ip_location (r1 r2 r3 : Except String JObj) : Except String Geo :=
  geo_chain
    [provider_attempt r1 extract_ipapi,
     provider_attempt r2 extract_ipinfo,
     provider_attempt r3 extract_ipapi_com] none

-- --- main (src/main.py lines 273-296) --------------------------------------

/-- `json.dumps(..., ensure_ascii=False)` escaping of one character. -/
def jsonEscapeChar (c : Char) : String :=
  if c = '"' then "\\\""
  else if c = '\\' then "\\\\"
  else if c = '\n' then "\\n"
  else if c = '\t' then "\\t"
  else if c = '\r' then "\\r"
  else if c.toNat = 8 then "\\b"
  else if c.toNat = 12 then "\\f"
  else if c.toNat < 32 then
    "\\u00" ++ padZeros (Nat.toDigits 16 c.toNat).asString 2
  else String.mk [c]

/-- A JSON string literal with Python's non-ASCII-preserving escaping. -/
def jsonQuote (s : String) : String :=
  "\"" ++ String.join (s.data.map jsonEscapeChar) ++ "\""

/-- `json.dumps(output, ensure_ascii=False)` for the waybar dict, with
Python's default separators and insertion order text, alt, tooltip, class. -/
def json_dumps (o : Output) : String :=
  "\x7b\"text\": " ++ jsonQuote o.text ++
  ", \"alt\": " ++ jsonQuote o.alt ++
  ", \"tooltip\": " ++ jsonQuote o.tooltip ++
  ", \"class\": " ++ jsonQuote o.«class» ++ "\x7d"

namespace WeatherWidget

/-- `main` of src/main.py, returning the list of lines printed to standard
output; `.error` models the uncaught exception when the first location
resolution fails (nothing in `main` writes to standard error).  The two
`get_ip_location` calls receive their own provider responses (`r1 r2 r3`
and `s1 s2 s3`); the second call's output line is
`f"📍 city, region, country → lat:.6f, lon:.6f"` on success and
`print("Fehler:", e)` on a caught failure — both on standard output. -/
def main (r1 r2 r3 : Except String JObj) (fetch : Except String ApiResponse)
    (s1 s2 s3 : Except String JObj) (now : ℚ) (off : Int) :
    Except String (List String) :=
  match get_ip_location r1 r2 r3 with
  | Except.error e => Except.error e
  | Except.ok (lat, lon, city, region, country) =>
    let gw := get_weather lat lon city "Europe/Berlin" region country fetch
    let weather_data := gw.1
    let location_info := gw.2.1
    let response := gw.2.2
    let request_limit_warning :=
      if weather_data.request_limit_reached then
        "\n⚠️ API request limit reached - showing cached/offline data"
      else ""
    let output := build_waybar_output response location_info weather_data
      request_limit_warning now off
    let line1 := json_dumps output
    let line2 :=
      match get_ip_location s1 s2 s3 with
      | Except.ok (lat2, lon2, city2, region2, country2) =>
        "📍 " ++ pyOptStr city2 ++ ", " ++ pyOptStr region2 ++ ", " ++
          pyOptStr country2 ++ " → " ++ fmtFixed lat2 6 ++ ", " ++
          fmtFixed lon2 6
      | Except.error e => "Fehler: " ++ e
    Except.ok [line1, line2]

end WeatherWidget

-- ===========================================================================
-- Observation helpers for the theorems
-- ===========================================================================

/-- Whether `p` is an initial segment of `l` (on character lists). -/
def leadsChars : List Char → List Char → Bool
  | [], _ => true
  | _ :: _, [] => false
  | p :: ps, c :: cs => p = c && leadsChars ps cs

/-- Whether `pat` occurs as a contiguous substring of `l`. -/
def containsChars (pat : List Char) : List Char → Bool
  | [] => leadsChars pat []
  | c :: rest => leadsChars pat (c :: rest) || containsChars pat rest

/-- Whether the string `pat` occurs as a substring of `s`. -/
def strContains (s pat : String) : Bool :=
  containsChars pat.data s.data

-- ===========================================================================
-- Theorems
-- ===========================================================================

/-- C3 counterexample: the claim names the fallback pair ("❓", "unknown"),
but for the absent code 4 the lookup returns ("❓", "unbekannt"), so the claim
as stated is false on the code. -/
theorem wmo_fallback_not_english :
    WMO.lookup (4 : Int) = none ∧
    wmo_to_icon_desc 4 = ("❓", "unbekannt") ∧
    wmo_to_icon_desc 4 ≠ ("❓", "unknown") := by
  decide

/-- C3 (amended): the weather-code lookup is a total function on the
integers: every code present in the table maps to that code's pair, and
every absent code maps to the single fixed fallback pair
("❓", "unbekannt"). -/
theorem wmo_lookup_total (c : Int) :
    (∀ p, WMO.lookup c = some p → wmo_to_icon_desc c = p) ∧
    (WMO.lookup c = none → wmo_to_icon_desc c = ("❓", "unbekannt")) := by
  constructor
  · intro p h
    simp [wmo_to_icon_desc, h]
  · intro h
    simp [wmo_to_icon_desc, h]

/-- Witness for C3: the lookup evaluated on a code in the table (0) and on a
code absent from it (100). -/
theorem wmo_lookup_total_witness :
    wmo_to_icon_desc 0 = ("☀️", "klar") ∧
    wmo_to_icon_desc 100 = ("❓", "unbekannt") :=
  ⟨(wmo_lookup_total 0).1 ("☀️", "klar") (by decide),
   (wmo_lookup_total 100).2 (by decide)⟩

/-- C4: for the concrete input current = (21, 19, 55, 12, "klar", "☀️", "0"),
location Berlin/Berlin/Germany, no warning and empty hourly list, the
formatter returns text "☀️ 21°C", alt "klar", class "0", and a tooltip that
is exactly the six claimed lines with no hourly section. -/
theorem build_waybar_concrete :
    build_waybar_output none ⟨"Berlin", some "Berlin", some "Germany"⟩
        ⟨false, ⟨21, 19, 55, 12, 0, [⟨"klar", "☀️", "0"⟩]⟩, []⟩ "" 0 0 =
      ⟨"☀️ 21°C", "klar",
        "📍 Berlin, Berlin, Germany\n<span size=\x27xx-large\x27>21°C</span>\n<big>☀️ Klar</big>\nGefühlte: 19°C\nFeuchtigkeit: 55%\nWind: 12 km/h",
        "0"⟩ ∧
    strContains (build_waybar_output none
        ⟨"Berlin", some "Berlin", some "Germany"⟩
        ⟨false, ⟨21, 19, 55, 12, 0, [⟨"klar", "☀️", "0"⟩]⟩, []⟩ "" 0
        0).tooltip "Stündlich:" = false := by
  decide

/-- C1: whenever the forecast request raises (any transport or read failure,
`Except.error`, or the one in-normalisation raise point, the zero hourly
interval), `get_weather` does not propagate: it returns the degraded
snapshot (flag true, all-zero placeholder with description "unbekannt" and
icon "❓", empty hourly) together with a `location_info` whose city is the
input `place_name` whenever a non-empty one was provided. -/
theorem get_weather_never_raises (lat lon : ℚ) (pn : Option String)
    (tz : String) (region country : Option String)
    (fetch : Except String ApiResponse)
    (hf : (∃ e, fetch = Except.error e) ∨
      (∃ r, fetch = Except.ok r ∧ r.h_interval = 0)) :
    (get_weather lat lon pn tz region country fetch).1 =
        degraded_weather_data ∧
    (get_weather lat lon pn tz region country fetch).2.2 = none ∧
    degraded_weather_data =
      ⟨true, ⟨0, 0, 0, 0, 0, [⟨"unbekannt", "❓", "-1"⟩]⟩, []⟩ ∧
    (∀ s, pn = some s → s ≠ "" →
      (get_weather lat lon pn tz region country fetch).2.1.city = s) := by
  rcases hf with ⟨e, he⟩ | ⟨r, hr, hi⟩
  · subst he
    refine ⟨rfl, rfl, rfl, ?_⟩
    intro s hs hne
    subst hs
    simp [get_weather, hne]
  · subst hr
    refine ⟨?_, ?_, rfl, ?_⟩
    · simp [get_weather, hi]
    · simp [get_weather, hi]
    · intro s hs hne
      subst hs
      simp [get_weather, hi, hne]

/-- Witness for C1: a failing fetch with place name "Berlin". -/
theorem get_weather_never_raises_witness :
    (get_weather 0 0 (some "Berlin") "Europe/Berlin" none none
        (Except.error "boom")).1 = degraded_weather_data ∧
    (get_weather 0 0 (some "Berlin") "Europe/Berlin" none none
        (Except.error "boom")).2.1.city = "Berlin" :=
  ⟨(get_weather_never_raises 0 0 (some "Berlin") "Europe/Berlin" none none
      (Except.error "boom") (Or.inl ⟨"boom", rfl⟩)).1,
   (get_weather_never_raises 0 0 (some "Berlin") "Europe/Berlin" none none
      (Except.error "boom") (Or.inl ⟨"boom", rfl⟩)).2.2.2 "Berlin" rfl
      (by decide)⟩

/-- C10: on the degraded path the placeholder record carries icon_code "-1",
so after any failing fetch the rendered class field is the string "-1", and
no code enumerated in the WMO table renders to that string. -/
theorem degraded_class_value (lat lon : ℚ) (pn : Option String) (tz : String)
    (region country : Option String) (e : String) (resp : Option ApiResponse)
    (loc : LocationInfo) (warn : String) (now : ℚ) (off : Int) :
    (build_waybar_output resp loc
        ((get_weather lat lon pn tz region country (Except.error e)).1)
        warn now off).«class» = "-1" ∧
    WMO.all (fun p => !(toString p.1 == "-1")) = true := by
  exact ⟨rfl, by decide⟩

/-- C2: `get_ip_location` returns the normalized output of the first
provider whose request and extraction succeed, skipping and recording every
earlier failure; only when all three providers have failed does it return an
error, and that error wraps the last provider's failure message. -/
theorem get_ip_location_chain (r1 r2 r3 : Except String JObj) :
    (∀ g, provider_attempt r1 extract_ipapi = Except.ok g →
      get_ip_location r1 r2 r3 = Except.ok g) ∧
    (∀ e1 g, provider_attempt r1 extract_ipapi = Except.error e1 →
      provider_attempt r2 extract_ipinfo = Except.ok g →
      get_ip_location r1 r2 r3 = Except.ok g) ∧
    (∀ e1 e2 g, provider_attempt r1 extract_ipapi = Except.error e1 →
      provider_attempt r2 extract_ipinfo = Except.error e2 →
      provider_attempt r3 extract_ipapi_com = Except.ok g →
      get_ip_location r1 r2 r3 = Except.ok g) ∧
    (∀ e1 e2 e3, provider_attempt r1 extract_ipapi = Except.error e1 →
      provider_attempt r2 extract_ipinfo = Except.error e2 →
      provider_attempt r3 extract_ipapi_com = Except.error e3 →
      get_ip_location r1 r2 r3 =
        Except.error ("IP-Geolokation fehlgeschlagen: " ++ e3)) := by
  refine ⟨?_, ?_, ?_, ?_⟩
  · intro g h1
    simp [get_ip_location, geo_chain, h1]
  · intro e1 g h1 h2
    simp [get_ip_location, geo_chain, h1, h2]
  · intro e1 e2 g h1 h2 h3
    simp [get_ip_location, geo_chain, h1, h2, h3]
  · intro e1 e2 e3 h1 h2 h3
    simp [get_ip_location, geo_chain, h1, h2, h3, pyOptStr]

/-- The ip-api.com response used by the C2 witness. -/
def ipapi_com_berlin : JObj :=
  [("lat", JVal.num 52), ("lon", JVal.num 13), ("city", JVal.str "Berlin"),
   ("regionName", JVal.str "Berlin"), ("country", JVal.str "Germany")]

/-- Witness for C2: providers 1-2 fail, provider 3 delivers a parseable
body, and the chain returns provider 3's normalized output. -/
theorem get_ip_location_chain_witness :
    get_ip_location (Except.error "timeout") (Except.error "http 500")
        (Except.ok ipapi_com_berlin) =
      Except.ok (52, 13, some "Berlin", some "Berlin", some "Germany") :=
  (get_ip_location_chain (Except.error "timeout") (Except.error "http 500")
      (Except.ok ipapi_com_berlin)).2.2.1 "timeout" "http 500"
    (52, 13, some "Berlin", some "Berlin", some "Germany") rfl rfl rfl

/-- C5: on a successful fetch the normalized hourly sequence is clamped to
the minimum of the declared step count (the [start, end) span divided by the
step) and the two array lengths, and entry i pairs the i-th (rounded)
temperature with the i-th (truncated) weather code. -/
theorem get_weather_hourly_clamp (lat lon : ℚ) (pn : Option String)
    (tz : String) (region country : Option String) (r : ApiResponse)
    (hstep : r.h_interval ≠ 0) :
    ((get_weather lat lon pn tz region country (Except.ok r)).1).hourly.length
        = (min (Int.fdiv (r.h_time_end - r.h_time) r.h_interval)
            (min (r.h_t2m.length : Int) (r.h_wmo.length : Int))).toNat ∧
    (∀ i x c, r.h_t2m.get? i = some x → r.h_wmo.get? i = some c →
      i < ((get_weather lat lon pn tz region country
          (Except.ok r)).1).hourly.length →
      ((get_weather lat lon pn tz region country
          (Except.ok r)).1).hourly.get? i =
        some ⟨(r.h_time : ℚ) + (i : ℚ) *
            ((r.h_time_end : ℚ) - (r.h_time : ℚ)) /
            ((max (Int.fdiv (r.h_time_end - r.h_time) r.h_interval) 1 :
              Int) : ℚ),
          pyRound x, pyTrunc c⟩) := by
  constructor
  · simp [get_weather, hstep]
  · intro i x c hx hc hi
    simp only [get_weather] at hi ⊢
    rw [if_neg hstep] at hi ⊢
    simp only [List.length_map, List.length_range] at hi
    rw [List.get?_map]
    simp only [List.length_map]
    rw [List.get?_range hi]
    simp only [List.get?_eq_getElem?] at hx hc
    simp [hx, hc]

/-- The response used by the C5 witness: declared count 12, ten temperature
values, eight weather-code values. -/
def ragged_response : ApiResponse :=
  { cur_temp := 20, cur_feels := 19, cur_hum := 55, cur_wind := 12,
    cur_winddeg := 180, h_time := 0, h_time_end := 43200, h_interval := 3600,
    h_t2m := [1, 2, 3, 4, 5, 6, 7, 8, 9, 10],
    h_wmo := [0, 1, 2, 3, 45, 61, 71, 95], cur_wmo := 0 }

/-- Witness for C5: with 10 temperatures, 8 codes and declared count 12 the
normalized hourly sequence has length 8. -/
theorem get_weather_hourly_clamp_witness :
    ((get_weather 0 0 none "Europe/Berlin" none none
        (Except.ok ragged_response)).1).hourly.length = 8 :=
  ((get_weather_hourly_clamp 0 0 none "Europe/Berlin" none none
      ragged_response (by decide)).1).trans (by decide)

/-- C6: the hourly formatter contributes the empty string on an empty list;
otherwise its rows are the first `hours` points whose timestamp floored to
the hour in local time is not before the current local hour, falling back to
the first `hours` points of the unfiltered list when no point qualifies. -/
theorem hourly_selection (hourly : List HourlyPoint) (hours : Nat)
    (tz : String) (now : ℚ) (off : Int) :
    format_hourly_forecast [] hours tz now off = "" ∧
    (∀ p, p ∈ hourly →
      hourFloorLocal now off ≤ hourFloorLocal p.time off →
      hourlyRows hourly hours now off =
        (hourly.filter (fun h =>
          decide (hourFloorLocal now off ≤
            hourFloorLocal h.time off))).take hours) ∧
    ((∀ p, p ∈ hourly →
        hourFloorLocal p.time off < hourFloorLocal now off) →
      hourlyRows hourly hours now off = hourly.take hours) := by
  refine ⟨rfl, ?_, ?_⟩
  · intro p hp hle
    have hmem : p ∈ hourly.filter (fun h =>
        decide (hourFloorLocal now off ≤ hourFloorLocal h.time off)) :=
      List.mem_filter.mpr ⟨hp, by simpa using hle⟩
    unfold hourlyRows
    rw [if_neg]
    simp only [List.isEmpty_iff]
    exact List.ne_nil_of_mem hmem
  · intro hall
    have hnil : hourly.filter (fun h =>
        decide (hourFloorLocal now off ≤ hourFloorLocal h.time off)) = [] := by
      rw [List.filter_eq_nil]
      intro a ha
      simpa using not_le.mpr (hall a ha)
    unfold hourlyRows
    rw [hnil]
    rfl

/-- The hourly list used by the C6 witness: points at 13:00, 14:00, 15:00
and 16:00 local time (UTC offset 0). -/
def hourly_afternoon : List HourlyPoint :=
  [⟨46800, 13, 0⟩, ⟨50400, 14, 1⟩, ⟨54000, 15, 2⟩, ⟨57600, 16, 3⟩]

/-- Witness for C6: with the current hour 14:00, the selected rows start at
14:00 (the 13:00 point is excluded). -/
theorem hourly_selection_witness :
    hourlyRows hourly_afternoon 6 50400 0 =
      [⟨50400, 14, 1⟩, ⟨54000, 15, 2⟩, ⟨57600, 16, 3⟩] :=
  ((hourly_selection hourly_afternoon 6 "Europe/Berlin" 50400 0).2.1
      ⟨50400, 14, 1⟩ (by decide) (by decide)).trans (by decide)

/-- C7 counterexample: the rendered hourly block's header line is
"Stündlich:", not "Hourly:" — the block for a single selected point contains
no "Hourly:" line at all. -/
theorem hourly_header_not_english :
    format_hourly_forecast [⟨50400, 5, 0⟩] 6 "Europe/Berlin" 50400 0 =
      "\n\nStündlich:\n14:00  ☀️  5°C" ∧
    strContains (format_hourly_forecast [⟨50400, 5, 0⟩] 6 "Europe/Berlin"
      50400 0) "Hourly:" = false := by
  decide

/-- `String.join` distributes over cons. -/
lemma string_join_cons (a : String) (l : List String) :
    String.join (a :: l) = a ++ String.join l := by
  simp [String.join_eq]
  rfl

/-- `join_nl` (Python's `"\n".join`) renders a head element followed by a
newline-prefixed copy of every further element. -/
lemma join_nl_cons_eq (a : String) (l : List String) :
    join_nl (a :: l) = a ++ String.join (l.map (fun b => "\n" ++ b)) := by
  induction l generalizing a with
  | nil => simp [join_nl, String.join]
  | cons b t ih =>
    show a ++ "\n" ++ join_nl (b :: t) = _
    rw [ih b, List.map_cons, string_join_cons]
    simp [String.append_assoc]

/-- C7 (amended): for every non-empty hourly list the rendered block is two
separator newlines, the header line "Stündlich:", and then exactly one
newline-prefixed line per selected point (local time HH:MM, the icon
resolved through the lookup table from the point's code, and the temperature
with a °C suffix, as `hourlyLine` spells out). -/
theorem hourly_block_structure (hourly : List HourlyPoint) (hours : Nat)
    (tz : String) (now : ℚ) (off : Int) (hne : hourly ≠ []) :
    format_hourly_forecast hourly hours tz now off =
      "\n\nStündlich:" ++
        String.join ((hourlyRows hourly hours now off).map
          (fun h => "\n" ++ hourlyLine h off)) := by
  unfold format_hourly_forecast
  rw [if_neg (by simpa using hne)]
  have step : join_nl (["", "", "Stündlich:"] ++
      (hourlyRows hourly hours now off).map (fun h => hourlyLine h off)) =
      "" ++ "\n" ++ ("" ++ "\n" ++ join_nl ("Stündlich:" ::
        (hourlyRows hourly hours now off).map (fun h => hourlyLine h off))) :=
    rfl
  rw [step, join_nl_cons_eq, List.map_map]
  rw [← String.append_assoc, ← String.append_assoc, ← String.append_assoc]
  congr 1

/-- Witness for C7 (amended): the block structure evaluated on a one-point
list at 13:00 local time. -/
theorem hourly_block_structure_witness :
    format_hourly_forecast [⟨46800, 7, 61⟩] 6 "Europe/Berlin" 46800 0 =
      "\n\nStündlich:" ++ String.join
        ((hourlyRows [⟨46800, 7, 61⟩] 6 46800 0).map
          (fun h => "\n" ++ hourlyLine h 0)) :=
  hourly_block_structure [⟨46800, 7, 61⟩] 6 "Europe/Berlin" 46800 0
    (by decide)

/-- The inputs of the C9 counterexample: a fixed location, fixed current
conditions, and two hourly points at 13:00 and 14:00 local time. -/
def clock_location : LocationInfo := ⟨"Berlin", none, none⟩

/-- Fixed weather data with a non-empty hourly list for C9. -/
def clock_weather_data : WeatherData :=
  ⟨false, ⟨10, 9, 50, 5, 0, [⟨"klar", "☀️", "0"⟩]⟩,
    [⟨46800, 13, 0⟩, ⟨50400, 14, 1⟩]⟩

/-- C9 counterexample: the formatter reads the wall clock through the hourly
filter, so two invocations with identical location, weather data and warning
but different invocation times produce different payloads (at 13:00 both
hourly rows render, at 14:00 only one). -/
theorem formatting_reads_clock :
    build_waybar_output none clock_location clock_weather_data "" 46800 0 ≠
      build_waybar_output none clock_location clock_weather_data "" 50400 0 := by
  decide

/-- C9 (amended): formatting is a deterministic function of its inputs
together with the invocation time and local timezone offset; the only
time-dependence is the hourly-row selection, so with an empty hourly list
the payload is byte-identical regardless of when each invocation runs. -/
theorem formatting_pure_given_time (resp : Option ApiResponse)
    (loc : LocationInfo) (rl : Bool) (c : Current) (warn : String)
    (now1 now2 : ℚ) (off1 off2 : Int) :
    build_waybar_output resp loc ⟨rl, c, []⟩ warn now1 off1 =
      build_waybar_output resp loc ⟨rl, c, []⟩ warn now2 off2 := rfl

/-- The ipapi.co response used by the C8 theorems. -/
def ipapi_berlin : JObj :=
  [("latitude", JVal.num 52), ("longitude", JVal.num 13),
   ("city", JVal.str "Berlin"), ("region", JVal.str "Berlin"),
   ("country_name", JVal.str "Germany")]

/-- C8 counterexample: on a run where location resolution succeeds and the
secondary location-print step fails, `main` writes TWO lines to standard
output — the JSON payload and then "Fehler: ..." from the caught error —
not exactly one, and nothing goes to standard error (the model's error
channel is empty by construction). -/
theorem main_writes_second_stdout_line :
    WeatherWidget.main (Except.ok ipapi_berlin) (Except.error "p2")
        (Except.error "p3") (Except.error "netz") (Except.error "a")
        (Except.error "b") (Except.error "c") 0 0 =
      Except.ok
        [json_dumps (build_waybar_output none
            ⟨"Berlin", some "Berlin", some "Germany"⟩ degraded_weather_data
            "\n⚠️ API request limit reached - showing cached/offline data" 0 0),
          "Fehler: IP-Geolokation fehlgeschlagen: c"] ∧
    (WeatherWidget.main (Except.ok ipapi_berlin) (Except.error "p2")
        (Except.error "p3") (Except.error "netz") (Except.error "a")
        (Except.error "b") (Except.error "c") 0 0).toOption.map List.length ≠
      some 1 := by
  refine ⟨rfl, ?_⟩
  decide

/-- C8 (amended): on a run where the first location resolution succeeds,
the first standard-output line is the JSON payload (keys text, alt, tooltip,
class, all strings, with non-ASCII characters kept literal by `json_dumps`),
and the secondary location-print step writes exactly one more
standard-output line whose content is pinned in BOTH of its branches: the
rendered location line when the secondary resolution succeeds, and
"Fehler: ..." when it fails — in either case the already-written JSON line
is unchanged and nothing goes to standard error. -/
theorem main_stdout_shape (r1 r2 r3 s1 s2 s3 : Except String JObj)
    (fetch : Except String ApiResponse) (lat lon : ℚ)
    (city region country : Option String) (now : ℚ) (off : Int)
    (h : get_ip_location r1 r2 r3 =
      Except.ok (lat, lon, city, region, country)) :
    (∀ e, get_ip_location s1 s2 s3 = Except.error e →
      WeatherWidget.main r1 r2 r3 fetch s1 s2 s3 now off = Except.ok
        [json_dumps (build_waybar_output
            (get_weather lat lon city "Europe/Berlin" region country
              fetch).2.2
            (get_weather lat lon city "Europe/Berlin" region country
              fetch).2.1
            (get_weather lat lon city "Europe/Berlin" region country
              fetch).1
            (if (get_weather lat lon city "Europe/Berlin" region country
                fetch).1.request_limit_reached then
              "\n⚠️ API request limit reached - showing cached/offline data"
            else "") now off),
          "Fehler: " ++ e]) ∧
    (∀ lat2 lon2 city2 region2 country2,
      get_ip_location s1 s2 s3 =
        Except.ok (lat2, lon2, city2, region2, country2) →
      WeatherWidget.main r1 r2 r3 fetch s1 s2 s3 now off = Except.ok
        [json_dumps (build_waybar_output
            (get_weather lat lon city "Europe/Berlin" region country
              fetch).2.2
            (get_weather lat lon city "Europe/Berlin" region country
              fetch).2.1
            (get_weather lat lon city "Europe/Berlin" region country
              fetch).1
            (if (get_weather lat lon city "Europe/Berlin" region country
                fetch).1.request_limit_reached then
              "\n⚠️ API request limit reached - showing cached/offline data"
            else "") now off),
          "📍 " ++ pyOptStr city2 ++ ", " ++ pyOptStr region2 ++ ", " ++
            pyOptStr country2 ++ " → " ++ fmtFixed lat2 6 ++ ", " ++
            fmtFixed lon2 6]) := by
  constructor
  · intro e he
    simp [WeatherWidget.main, h, he]
  · intro lat2 lon2 city2 region2 country2 he
    simp [WeatherWidget.main, h, he]

/-- Witness for C8 (amended): two runs with a successful first resolution
and a failing fetch — one whose secondary resolution fails (last provider
error "w") and one whose secondary resolution succeeds — discharging the
hypotheses of both branches of the theorem at concrete inputs. -/
theorem main_stdout_shape_witness :
    WeatherWidget.main (Except.ok ipapi_berlin) (Except.error "q2")
        (Except.error "q3") (Except.error "offline") (Except.error "u")
        (Except.error "v") (Except.error "w") 0 0 = Except.ok
      [json_dumps (build_waybar_output
          (get_weather 52 13 (some "Berlin") "Europe/Berlin"
            (some "Berlin") (some "Germany") (Except.error "offline")).2.2
          (get_weather 52 13 (some "Berlin") "Europe/Berlin"
            (some "Berlin") (some "Germany") (Except.error "offline")).2.1
          (get_weather 52 13 (some "Berlin") "Europe/Berlin"
            (some "Berlin") (some "Germany") (Except.error "offline")).1
          (if (get_weather 52 13 (some "Berlin") "Europe/Berlin"
              (some "Berlin") (some "Germany")
              (Except.error "offline")).1.request_limit_reached then
            "\n⚠️ API request limit reached - showing cached/offline data"
          else "") 0 0),
        "Fehler: " ++ "IP-Geolokation fehlgeschlagen: w"] ∧
    WeatherWidget.main (Except.ok ipapi_berlin) (Except.error "q2")
        (Except.error "q3") (Except.error "offline") (Except.ok ipapi_berlin)
        (Except.error "x2") (Except.error "x3") 0 0 = Except.ok
      [json_dumps (build_waybar_output
          (get_weather 52 13 (some "Berlin") "Europe/Berlin"
            (some "Berlin") (some "Germany") (Except.error "offline")).2.2
          (get_weather 52 13 (some "Berlin") "Europe/Berlin"
            (some "Berlin") (some "Germany") (Except.error "offline")).2.1
          (get_weather 52 13 (some "Berlin") "Europe/Berlin"
            (some "Berlin") (some "Germany") (Except.error "offline")).1
          (if (get_weather 52 13 (some "Berlin") "Europe/Berlin"
              (some "Berlin") (some "Germany")
              (Except.error "offline")).1.request_limit_reached then
            "\n⚠️ API request limit reached - showing cached/offline data"
          else "") 0 0),
        "📍 " ++ pyOptStr (some "Berlin") ++ ", " ++
          pyOptStr (some "Berlin") ++ ", " ++ pyOptStr (some "Germany") ++
          " → " ++ fmtFixed 52 6 ++ ", " ++ fmtFixed 13 6] :=
  ⟨(main_stdout_shape (Except.ok ipapi_berlin) (Except.error "q2")
      (Except.error "q3") (Except.error "u") (Except.error "v")
      (Except.error "w") (Except.error "offline") 52 13 (some "Berlin")
      (some "Berlin") (some "Germany") 0 0 rfl).1
      "IP-Geolokation fehlgeschlagen: w" rfl,
   (main_stdout_shape (Except.ok ipapi_berlin) (Except.error "q2")
      (Except.error "q3") (Except.ok ipapi_berlin) (Except.error "x2")
      (Except.error "x3") (Except.error "offline") 52 13 (some "Berlin")
      (some "Berlin") (some "Germany") 0 0 rfl).2
      52 13 (some "Berlin") (some "Berlin") (some "Germany") rfl⟩
